import Mathlib

/-!
Muehle POS: ledger, receipt encoding and printer dispatch.

A shallow embedding of the Go packages `internal/printing`, `internal/logic`,
`internal/db` and of the deposit handler of `internal/ui`, together with the
properties of the written specification that concern them.

Conventions of the embedding:

* a Go `string` is a Lean `String`, that is, text: byte sequences that are not
  UTF-8 are not represented; `strings.HasPrefix` compares the leading characters
  (all prefixes used by the program are ASCII, for which the byte-wise and the
  character-wise comparison agree);
* a Go `[]byte` is a `List Nat` whose entries are below 256;
* a Go `int64` is an `Int`; arithmetic on it is wrapped by `wrapInt64`;
* a Go `error` is an `Option String`: `none` is `nil`, `some msg` carries `Error()`;
* calls that leave the process (device files, the `lp` subprocess, the SQLite
  store) are recorded in a trace, and their outcome is supplied by an explicit
  environment argument.
-/

namespace MuehlePos

/-! ## Package `printing`: escpos.go -/

/-- The struct `Config` (printer.go lines 11-13). -/
structure Config where
  Backend : String
  deriving DecidableEq

/-- The function `strings.HasPrefix`. -/
def HasPrefix (s p : String) : Bool := p.toList.isPrefixOf s.toList

/-- The function `strings.TrimPrefix`. -/
def TrimPrefix (s p : String) : String :=
  if HasPrefix s p then String.mk (s.toList.drop p.length) else s

/-- What `PrintRaw` does outside the process, in program order. -/
inductive IOEvent where
  /-- The call `fmt.Printf("[TEST PRINT]\n% X\n", data)` on standard output. -/
  | stdoutPrintf (data : List Nat)
  /-- The call `os.OpenFile(path, os.O_WRONLY, 0o666)`. -/
  | openFile (path : String)
  /-- The call `f.Write(data)` on the opened device file. -/
  | fileWrite (data : List Nat)
  /-- The deferred `f.Close()`. -/
  | fileClose
  /-- The call `cmd.StdinPipe()` for the command with these arguments. -/
  | stdinPipe (argv : List String)
  /-- The call `cmd.Start()`: the spooler subprocess is started. -/
  | start (argv : List String)
  /-- The call `stdin.Write(data)` into the subprocess. -/
  | stdinWrite (data : List Nat)
  /-- The call `stdin.Close()`. -/
  | stdinClose
  /-- The call `cmd.Wait()`. -/
  | wait
  deriving DecidableEq

/-- Outcomes of the operating system calls made by `PrintRaw`; `none` is success. -/
structure PrintEnv where
  openFile : String → Option String
  fileWrite : Option String
  stdinPipe : Option String
  start : Option String
  stdinWrite : Option String
  wait : Option String

/-- An environment in which every system call succeeds. -/
def PrintEnv.ok : PrintEnv :=
  { openFile := fun _ => none, fileWrite := none, stdinPipe := none,
    start := none, stdinWrite := none, wait := none }

/-- The body shared by the `cups:` branch (printer.go lines 31-43) and the `auto`
branch (lines 46-58): pipe `data` into the command `argv`. -/
def lpPipe (env : PrintEnv) (argv : List String) (data : List Nat) :
    List IOEvent × Option String :=
  match env.stdinPipe with
  | some err => ([.stdinPipe argv], some err)
  | none =>
    match env.start with
    | some err => ([.stdinPipe argv, .start argv], some err)
    | none =>
      match env.stdinWrite with
      | some err => ([.stdinPipe argv, .start argv, .stdinWrite data], some err)
      | none =>
        ([.stdinPipe argv, .start argv, .stdinWrite data, .stdinClose, .wait], env.wait)

/-- The function `PrintRaw` (printer.go lines 15-67). The result is the trace of
what was done outside the process and the returned error. -/
def PrintRaw (env : PrintEnv) (cfg : Config) (data : List Nat) :
    List IOEvent × Option String :=
  let b := cfg.Backend
  if b = "" ∨ b = "test" then
    ([.stdoutPrintf data], none)
  else if HasPrefix b "/dev/" then
    match env.openFile b with
    | some err => ([.openFile b], some err)
    | none => ([.openFile b, .fileWrite data, .fileClose], env.fileWrite)
  else if HasPrefix b "cups:" then
    let q := TrimPrefix b "cups:"
    lpPipe env ["lp", "-d", q, "-o", "raw"] data
  else if HasPrefix b "auto" then
    lpPipe env ["lp", "-o", "raw"] data
  else if HasPrefix b "usb" then
    ([], some "usb backend not implemented in base build; use CUPS or /dev/usb/lp*")
  else if HasPrefix b "winspool:" then
    ([], some "winspool not implemented in base build")
  else
    ([], some ("unknown backend: " ++ b))

/-- The trace opens no device file and starts no subprocess. -/
def touchesNoDevice (t : List IOEvent) : Prop :=
  ∀ e ∈ t, (∀ p, e ≠ .openFile p) ∧ (∀ a, e ≠ .start a) ∧ (∀ a, e ≠ .stdinPipe a)

/-- The string `msg` contains the string `b`. -/
def Mentions (msg b : String) : Prop :=
  ∃ pre post : String, msg = pre ++ b ++ post

/-! ## Package `db`: the schema of db.go as a store -/

/-- A row of table `event` (db.go lines 21-26). A SQL `NULL` is `none`. -/
structure EventRow where
  id : Int
  name : String
  active : Option Int
  created_at : Nat
  deriving DecidableEq

/-- A row of table `products` (db.go lines 28-40). -/
structure ProductRow where
  id : Int
  name : String
  price_cents : Int
  tax_rate_bp : Int
  category : Option String
  active : Option Int
  color_hex : Option String
  symbol : Option String
  is_deposit : Option Int
  event_id : Option Int
  deriving DecidableEq

/-- A row of table `orders` (db.go lines 42-49). -/
structure OrderRow where
  id : Int
  total_cents : Int
  payment_method : String
  event_id : Option Int
  created_at : Nat
  deriving DecidableEq

/-- A row of table `order_items` (db.go lines 51-62). -/
structure OrderItemRow where
  id : Int
  order_id : Int
  product_id : Option Int
  name : String
  unit_cents : Int
  qty : Int
  tax_rate_bp : Int
  line_cents : Int
  deriving DecidableEq

/-- A row of table `pfand_refund` (db.go lines 64-70). -/
structure PfandRefundRow where
  id : Int
  qty : Int
  amount_cents : Int
  event_id : Option Int
  created_at : Nat
  deriving DecidableEq

/-- A row of table `order_reversals` (db.go lines 72-80). -/
structure OrderReversalRow where
  id : Int
  original_order_id : Int
  reversal_order_id : Int
  created_at : Nat
  deriving DecidableEq

/-- The bookkeeping of `AUTOINCREMENT`: per table the largest rowid handed out so
far (SQLite keeps it in `sqlite_sequence`). -/
structure Sequences where
  event : Int
  products : Int
  orders : Int
  order_items : Int
  pfand_refund : Int
  order_reversals : Int
  deriving DecidableEq

/-- The committed content of the database. Rows are listed in rowid order; a table
that was never created is represented like an empty one (`migrate` creates every
table before the program uses the store). -/
structure Store where
  event : List EventRow
  products : List ProductRow
  orders : List OrderRow
  order_items : List OrderItemRow
  pfand_refund : List PfandRefundRow
  order_reversals : List OrderReversalRow
  settings : List (String × String)
  app_kv : List (String × String)
  seq : Sequences
  deriving DecidableEq

/-- A database file that has just been created. -/
def Store.empty : Store :=
  { event := [], products := [], orders := [], order_items := [], pfand_refund := [],
    order_reversals := [], settings := [], app_kv := [],
    seq := { event := 0, products := 0, orders := 0, order_items := 0,
             pfand_refund := 0, order_reversals := 0 } }

/-- The largest value of a Go `int64`, which is also the largest rowid. -/
def maxInt64 : Int := 9223372036854775807

/-- The two's complement wrap-around of Go arithmetic on `int64`. -/
def wrapInt64 (x : Int) : Int :=
  (x + 9223372036854775808) % 18446744073709551616 - 9223372036854775808

/-- The value fits a Go `int64`. -/
def IsInt64 (x : Int) : Prop := -9223372036854775808 ≤ x ∧ x ≤ 9223372036854775807

instance (x : Int) : Decidable (IsInt64 x) := by unfold IsInt64; infer_instance

/-- The rowid of a new row of an `INTEGER PRIMARY KEY AUTOINCREMENT` table: one more
than the largest rowid the table ever held; `none` when that was the largest
possible rowid (the insert then fails with `SQLITE_FULL`). -/
def nextRowid (seq : Int) (ids : List Int) : Option Int :=
  let m := ids.foldl max seq
  if m ≥ maxInt64 then none else some (m + 1)

/-- The message of `SQLITE_FULL`. -/
def errFull : String := "database or disk is full (13)"

/-- The message of `sql.ErrNoRows`. -/
def errNoRows : String := "sql: no rows in result set"

/-- Outcome of the store calls of one invocation that do not follow from the
content of the store (lock time-outs, I/O errors, a cancelled context): the `k`-th
call fails with the given message, or is carried out when the entry is `none`. -/
abbrev DbEnv := Nat → Option String

/-- The environment in which no call fails. -/
def DbEnv.ok : DbEnv := fun _ => none

/-- The calls that reach the store, in program order. -/
inductive DbCall where
  | beginTx
  | queryActiveEvent
  | insertOrder
  | insertOrderItem
  | commit
  | rollback
  | insertPfandRefund
  | querySetting (key : String)
  deriving DecidableEq

/-- The query `SELECT id FROM event WHERE active=1 LIMIT 1`: the id of the first
row with `active = 1`, `none` when there is no such row. -/
def selectActiveEvent (db : Store) : Option Int :=
  ((db.event.filter (fun r => r.active = some 1)).head?).map (fun r => r.id)

/-- The value stored under `key` in a key/value table. -/
def lookupKV (rows : List (String × String)) (key : String) : Option String :=
  (rows.find? (fun kv => kv.1 = key)).map (fun kv => kv.2)

/-- The query `SELECT value FROM settings WHERE key=?` on the store. -/
def selectSetting (db : Store) (key : String) : Option String :=
  lookupKV db.settings key

/-- One row of `INSERT INTO settings ... ON CONFLICT(key) DO NOTHING`. -/
def insertSettingOrIgnore (rows : List (String × String)) (kv : String × String) :
    List (String × String) :=
  if rows.any (fun r => r.1 = kv.1) then rows else rows ++ [kv]

/-- The default settings of db.go lines 93-97. -/
def defaultSettings : List (String × String) :=
  [("deposit_cents", "50"), ("printer_backend", "test"), ("receipt_width", "32")]

/-- The statement of db.go lines 100-101:
`INSERT INTO event(name,active) SELECT 'Standard',1 WHERE NOT EXISTS(...)`. -/
def ensureActiveEvent (now : Nat) (db : Store) : Store × Option String :=
  if (selectActiveEvent db).isSome then (db, none)
  else
    match nextRowid db.seq.event (db.event.map (fun r => r.id)) with
    | none => (db, some errFull)
    | some id =>
      ({ db with
          event := db.event ++ [{ id := id, name := "Standard", active := some 1,
                                  created_at := now }],
          seq := { db.seq with event := id } }, none)

/-- The function `migrate` (db.go lines 19-105). The script is run statement by
statement: statements 0-7 are the eight `CREATE TABLE IF NOT EXISTS`, statement 8
seeds the settings, statement 9 ensures an active event. A failing statement ends
the run and keeps what the earlier statements did. -/
def migrate (env : DbEnv) (now : Nat) (db : Store) : Store × Option String :=
  match (List.range 8).findSome? env with
  | some err => (db, some err)
  | none =>
    match env 8 with
    | some err => (db, some err)
    | none =>
      let db1 := { db with settings := defaultSettings.foldl insertSettingOrIgnore db.settings }
      match env 9 with
      | some err => (db1, some err)
      | none => ensureActiveEvent now db1

/-! ## Package `logic`: sales.go and pfand.go -/

/-- The struct `CartLine` (sales.go lines 10-16). -/
structure CartLine where
  Name : String
  UnitCents : Int
  Qty : Int
  TaxRateBP : Int
  ProductID : Int
  deriving DecidableEq

/-- The struct `SaleResult` (sales.go lines 18-21). -/
structure SaleResult where
  OrderID : Int
  TotalCents : Int
  deriving DecidableEq

/-- The result of a call into package `logic`: the committed store afterwards, the
calls made on the store, the returned value and the returned error. -/
structure Outcome (α : Type) where
  store : Store
  calls : List DbCall
  ret : α
  err : Option String

/-- The function `ActiveEventID` (sales.go lines 23-27); `fault` is the outcome of
the query given by the environment. On an error the id is the zero value. -/
def ActiveEventID (fault : Option String) (db : Store) : Int × Option String :=
  match fault with
  | some err => (0, some err)
  | none =>
    match selectActiveEvent db with
    | none => (0, some errNoRows)
    | some id => (id, none)

/-- The loop of sales.go lines 45-48: `total += l.UnitCents * l.Qty` on `int64`. -/
def cartTotal (lines : List CartLine) : Int :=
  lines.foldl (fun total l => wrapInt64 (total + wrapInt64 (l.UnitCents * l.Qty))) 0

/-- The statement of sales.go lines 50-51 on the transaction `tx`, followed by
`res.LastInsertId()`. -/
def execInsertOrder (fault : Option String) (tx : Store) (total : Int) (payment : String)
    (evID : Int) (now : Nat) : Except String (Store × Int) :=
  match fault with
  | some err => .error err
  | none =>
    match nextRowid tx.seq.orders (tx.orders.map (fun r => r.id)) with
    | none => .error errFull
    | some oid =>
      .ok ({ tx with
              orders := tx.orders ++ [{ id := oid, total_cents := total,
                                        payment_method := payment, event_id := some evID,
                                        created_at := now }],
              seq := { tx.seq with orders := oid } }, oid)

/-- Modelled from the spec: the seventh argument of the item insert, the value of
column `line_cents`. The source file sales.go ends inside that argument list after
`l.`; the spec gives "line total = unit × qty", computed here on `int64`. -/
def lineCents (l : CartLine) : Int := wrapInt64 (l.UnitCents * l.Qty)

/-- The statement of sales.go lines 58-60 on the transaction `tx` for one cart
line; the last column is `lineCents`. -/
def execInsertItem (fault : Option String) (tx : Store) (oid : Int) (l : CartLine) :
    Except String Store :=
  match fault with
  | some err => .error err
  | none =>
    match nextRowid tx.seq.order_items (tx.order_items.map (fun r => r.id)) with
    | none => .error errFull
    | some id =>
      .ok { tx with
              order_items := tx.order_items ++
                [{ id := id, order_id := oid, product_id := some l.ProductID, name := l.Name,
                   unit_cents := l.UnitCents, qty := l.Qty, tax_rate_bp := l.TaxRateBP,
                   line_cents := lineCents l }],
              seq := { tx.seq with order_items := id } }

/-- Modelled from the spec: the error check that closes the body of the loop of
sales.go lines 57-60, which the source file no longer contains. The spec requires
that a failure at any point leaves no partial state, so a failing item insert ends
the loop with that error. The `k`-th call of the environment decides the insert of
the first line; the result is the transaction, the number of inserts attempted and
the error. -/
def insertItems (env : DbEnv) (oid : Int) :
    List CartLine → Nat → Store → Store × Nat × Option String
  | [], _, tx => (tx, 0, none)
  | l :: ls, k, tx =>
    match execInsertItem (env k) tx oid l with
    | .error err => (tx, 1, some err)
    | .ok tx1 =>
      let r := insertItems env oid ls (k + 1) tx1
      (r.1, r.2.1 + 1, r.2.2)

/-- Modelled from the spec: the end of `CreateSale` behind the loop, which the
source file no longer contains: the transaction is committed and the new order id
and the computed total are returned; a failing commit is a storage error and
leaves no row. `db` is the committed store, `tx` the transaction. -/
def commitSale (fault : Option String) (db tx : Store) (calls : List DbCall)
    (oid total : Int) : Outcome SaleResult :=
  match fault with
  | some err =>
    { store := db, calls := calls ++ [.commit, .rollback], ret := ⟨0, 0⟩, err := some err }
  | none =>
    { store := tx, calls := calls ++ [.commit], ret := ⟨oid, total⟩, err := none }

/-- The function `CreateSale` (sales.go lines 29-60 and the reconstructed end).
Calls of the environment: 0 `BeginTx`, 1 the active event query, 2 the order
insert, `3 + i` the insert of line `i`, `3 + len(lines)` the commit. Every return
after `BeginTx` runs the deferred `tx.Rollback()`, which discards the transaction
unless it was committed. -/
def CreateSale (env : DbEnv) (now : Nat) (db : Store) (payment : String)
    (lines : List CartLine) : Outcome SaleResult :=
  if lines.length = 0 then
    { store := db, calls := [], ret := ⟨0, 0⟩, err := some "empty cart" }
  else
    match env 0 with
    | some err => { store := db, calls := [.beginTx], ret := ⟨0, 0⟩, err := some err }
    | none =>
      let tx := db
      match ActiveEventID (env 1) db with
      | (_, some err) =>
        { store := db, calls := [.beginTx, .queryActiveEvent, .rollback],
          ret := ⟨0, 0⟩, err := some err }
      | (evID, none) =>
        let total := cartTotal lines
        match execInsertOrder (env 2) tx total payment evID now with
        | .error err =>
          { store := db, calls := [.beginTx, .queryActiveEvent, .insertOrder, .rollback],
            ret := ⟨0, 0⟩, err := some err }
        | .ok (tx, oid) =>
          match insertItems env oid lines 3 tx with
          | (_, n, some err) =>
            { store := db,
              calls := [.beginTx, .queryActiveEvent, .insertOrder]
                ++ List.replicate n .insertOrderItem ++ [.rollback],
              ret := ⟨0, 0⟩, err := some err }
          | (tx, n, none) =>
            commitSale (env (3 + lines.length)) db tx
              ([.beginTx, .queryActiveEvent, .insertOrder]
                ++ List.replicate n .insertOrderItem) oid total

/-- The function `RefundDeposit` (pfand.go lines 9-14): one `INSERT` outside any
explicit transaction; the event id is the value of the scalar subquery, `NULL`
when no event is active. Call 0 of the environment decides the statement. -/
def RefundDeposit (env : DbEnv) (now : Nat) (db : Store) (qty amountCents : Int) :
    Outcome Unit :=
  match env 0 with
  | some err => { store := db, calls := [.insertPfandRefund], ret := (), err := some err }
  | none =>
    match nextRowid db.seq.pfand_refund (db.pfand_refund.map (fun r => r.id)) with
    | none => { store := db, calls := [.insertPfandRefund], ret := (), err := some errFull }
    | some id =>
      { store :=
          { db with
              pfand_refund := db.pfand_refund ++
                [{ id := id, qty := qty, amount_cents := amountCents,
                   event_id := selectActiveEvent db, created_at := now }],
              seq := { db.seq with pfand_refund := id } },
        calls := [.insertPfandRefund], ret := (), err := none }

/-! ## Package `ui`: the deposit tab of tabs.go and util.go -/

/-- The largest value of a Go `uint64`. -/
def maxUint64 : Nat := 18446744073709551615

/-- The message of `strconv.ErrSyntax`. -/
def errSyntax : String := "invalid syntax"

/-- The message of `strconv.ErrRange`. -/
def errRange : String := "value out of range"

/-- The digit loop of `strconv.ParseUint(s, 10, 64)`: `n` is the value read so far.
A character that is no decimal digit is a syntax error with value 0; a value above
`maxUint64` is a range error with value `maxUint64`. -/
def parseUintDigits : List Char → Nat → Nat × Option String
  | [], n => (n, none)
  | c :: cs, n =>
    if '0' ≤ c ∧ c ≤ '9' then
      let d := c.toNat - '0'.toNat
      if n ≥ maxUint64 / 10 + 1 then (maxUint64, some errRange)
      else if n * 10 + d > maxUint64 then (maxUint64, some errRange)
      else parseUintDigits cs (n * 10 + d)
    else (0, some errSyntax)

/-- The function `strconv.ParseUint(s, 10, 64)`. -/
def ParseUint (s : List Char) : Nat × Option String :=
  match s with
  | [] => (0, some errSyntax)
  | _ => parseUintDigits s 0

/-- The function `strconv.ParseInt(s, 10, 64)`: value and error. -/
def ParseInt (s : String) : Int × Option String :=
  match s.toList with
  | [] => (0, some errSyntax)
  | c :: cs =>
    let neg := c = '-'
    let digits := if c = '+' ∨ c = '-' then cs else c :: cs
    let r := ParseUint digits
    if r.2 = some errSyntax then (0, some errSyntax)
    else if ¬ neg ∧ r.1 ≥ 9223372036854775808 then (9223372036854775807, some errRange)
    else if neg ∧ r.1 > 9223372036854775808 then (-9223372036854775808, some errRange)
    else if neg then (-(r.1 : Int), none) else ((r.1 : Int), none)

/-- The function `getDepositCents` (util.go lines 26-31); `fault` is the outcome of
the query given by the environment. Both errors are discarded: a failed query
leaves `v` empty, a failed parse gives the value `ParseInt` returns with its error. -/
def getDepositCents (fault : Option String) (db : Store) : Int :=
  let v : String :=
    match fault with
    | some _ => ""
    | none => (selectSetting db "deposit_cents").getD ""
  (ParseInt v).1

/-- The text of the label `info` of the deposit tab. The amount is kept in cents:
`euro` formats it through `float64`, which is outside this embedding. -/
inductive InfoText where
  /-- A fixed text. -/
  | text (s : String)
  /-- The text `"Ausgezahlt: "` followed by `euro(cents)`. -/
  | ausgezahlt (cents : Int)
  deriving DecidableEq

/-- The click handler of the button "Auszahlen" (tabs.go lines 128-137), for the
content `qtyText` of the entry field. The result is the store, the calls made on
it and the text set on the label. Call 0 of the environment decides the settings
query, call 1 the insert of `RefundDeposit`, whose error is discarded. -/
def depositSubmit (env : DbEnv) (now : Nat) (db : Store) (qtyText : String) :
    Store × List DbCall × InfoText :=
  let qty := (ParseInt qtyText).1
  if qty ≤ 0 then
    (db, [], .text "Anzahl > 0")
  else
    let dep := getDepositCents (env 0) db
    let r := RefundDeposit (fun k => env (k + 1)) now db qty (wrapInt64 (dep * qty))
    (r.store, .querySetting "deposit_cents" :: r.calls, .ausgezahlt (wrapInt64 (dep * qty)))

/-! ## Stores used as concrete inputs -/

/-- The store right after `migrate` on a new database file at time 0. -/
def storeFresh : Store := (migrate DbEnv.ok 0 Store.empty).1

/-- A store whose only event has been deactivated. -/
def storeNoActive : Store :=
  { storeFresh with event := [{ id := 1, name := "Standard", active := some 0, created_at := 0 }] }

/-- The item row `it` records the cart line `l` for the order `oid`. -/
def IsItemRow (oid : Int) (l : CartLine) (it : OrderItemRow) : Prop :=
  it.order_id = oid ∧ it.product_id = some l.ProductID ∧ it.name = l.Name
  ∧ it.unit_cents = l.UnitCents ∧ it.qty = l.Qty ∧ it.tax_rate_bp = l.TaxRateBP
  ∧ it.line_cents = wrapInt64 (l.UnitCents * l.Qty)

/-- The exact sum of `UnitCents × Qty` over the cart. -/
def exactTotal (lines : List CartLine) : Int :=
  (lines.map (fun l => l.UnitCents * l.Qty)).sum

/-- A cart with two lines. -/
def cartTwo : List CartLine :=
  [{ Name := "Pommes", UnitCents := 350, Qty := 2, TaxRateBP := 700, ProductID := 1 },
   { Name := "Cola 0.5L", UnitCents := 250, Qty := 1, TaxRateBP := 1900, ProductID := 2 }]

/-- A cart whose single line overflows `int64`: 2^62 cents, twice. -/
def cartOverflow : List CartLine :=
  [{ Name := "Pommes", UnitCents := 4611686018427387904, Qty := 2, TaxRateBP := 700,
     ProductID := 1 }]

/-- An environment in which the insert of the second cart line fails. -/
def envSecondItemFails : DbEnv := fun k => if k = 4 then some "disk I/O error" else none

/-! ## The Windows-1252 code page as the specification names it -/

/-- C9. For the backends "" and "test" and every data, `PrintRaw` returns `nil` after
only writing the test dump to standard output: no device file is opened and no
spooler subprocess is started, whatever the environment. -/
theorem PrintRaw_test_noop (env : PrintEnv) (data : List Nat) :
    PrintRaw env ⟨""⟩ data = ([.stdoutPrintf data], none)
    ∧ PrintRaw env ⟨"test"⟩ data = ([.stdoutPrintf data], none)
    ∧ touchesNoDevice (PrintRaw env ⟨""⟩ data).1
    ∧ touchesNoDevice (PrintRaw env ⟨"test"⟩ data).1 := by
  have h1 : PrintRaw env ⟨""⟩ data = ([.stdoutPrintf data], none) := by
    simp [PrintRaw]
  have h2 : PrintRaw env ⟨"test"⟩ data = ([.stdoutPrintf data], none) := by
    simp [PrintRaw]
  refine ⟨h1, h2, ?_, ?_⟩
  · rw [h1]; intro e he; simp at he; subst he; simp
  · rw [h2]; intro e he; simp at he; subst he; simp

/-- C7, as stated, fails: the backend "autox" is none of "", "test", "auto", "usb"
and begins with none of "/dev/", "cups:", "usb:", "winspool:", yet `PrintRaw` starts
the `lp` subprocess, pipes the data into it and returns `nil`. -/
theorem PrintRaw_autox_not_unknown :
    ("autox" ≠ "" ∧ "autox" ≠ "test" ∧ "autox" ≠ "auto" ∧ "autox" ≠ "usb"
      ∧ HasPrefix "autox" "/dev/" = false ∧ HasPrefix "autox" "cups:" = false
      ∧ HasPrefix "autox" "usb:" = false ∧ HasPrefix "autox" "winspool:" = false)
    ∧ PrintRaw PrintEnv.ok ⟨"autox"⟩ [0x41]
        = ([.stdinPipe ["lp", "-o", "raw"], .start ["lp", "-o", "raw"], .stdinWrite [0x41],
            .stdinClose, .wait], none) := by
  decide

/-- C7, amended. For every backend string that is neither "" nor "test" and begins
with none of "/dev/", "cups:", "auto", "usb", "winspool:", and for every data and
environment, `PrintRaw` does nothing outside the process and fails with the error
"unknown backend: " followed by the backend string, so the message contains it. -/
theorem PrintRaw_unknown_backend (env : PrintEnv) (b : String) (data : List Nat)
    (h0 : b ≠ "") (h1 : b ≠ "test") (h2 : HasPrefix b "/dev/" = false)
    (h3 : HasPrefix b "cups:" = false) (h4 : HasPrefix b "auto" = false)
    (h5 : HasPrefix b "usb" = false) (h6 : HasPrefix b "winspool:" = false) :
    PrintRaw env ⟨b⟩ data = ([], some ("unknown backend: " ++ b))
    ∧ Mentions ("unknown backend: " ++ b) b := by
  constructor
  · simp [PrintRaw, h0, h1, h2, h3, h4, h5, h6]
  · exact ⟨"unknown backend: ", "", by simp⟩

/-- C7, amended, at the backend "bogus://x". -/
theorem PrintRaw_unknown_backend_witness :
    PrintRaw PrintEnv.ok ⟨"bogus://x"⟩ [0x41] = ([], some ("unknown backend: " ++ "bogus://x"))
    ∧ Mentions ("unknown backend: " ++ "bogus://x") "bogus://x" :=
  PrintRaw_unknown_backend PrintEnv.ok "bogus://x" [0x41] (by decide) (by decide) (by decide)
    (by decide) (by decide) (by decide) (by decide)

/-! ## Properties of package `logic` -/

theorem wrapInt64_add (a b : Int) :
    wrapInt64 (wrapInt64 a + wrapInt64 b) = wrapInt64 (a + b) := by
  unfold wrapInt64; omega

theorem wrapInt64_of_isInt64 (x : Int) (h : IsInt64 x) : wrapInt64 x = x := by
  unfold IsInt64 at h; unfold wrapInt64; omega

theorem cartTotal_foldl (lines : List CartLine) (acc : Int) :
    lines.foldl (fun total l => wrapInt64 (total + wrapInt64 (l.UnitCents * l.Qty)))
        (wrapInt64 acc)
      = wrapInt64 (acc + exactTotal lines) := by
  induction lines generalizing acc with
  | nil => simp [exactTotal]
  | cons l ls ih =>
    rw [List.foldl_cons, wrapInt64_add, ih]
    simp [exactTotal, add_assoc]

theorem cartTotal_eq (lines : List CartLine) : cartTotal lines = wrapInt64 (exactTotal lines) := by
  have h := cartTotal_foldl lines 0
  have h0 : wrapInt64 0 = 0 := by decide
  rw [h0] at h
  simpa [cartTotal] using h

theorem execInsertItem_ok (fault : Option String) (tx tx1 : Store) (oid : Int) (l : CartLine)
    (h : execInsertItem fault tx oid l = .ok tx1) :
    (∃ it, tx1.order_items = tx.order_items ++ [it] ∧ IsItemRow oid l it)
    ∧ tx1.orders = tx.orders ∧ tx1.event = tx.event ∧ tx1.products = tx.products
    ∧ tx1.pfand_refund = tx.pfand_refund ∧ tx1.order_reversals = tx.order_reversals
    ∧ tx1.settings = tx.settings ∧ tx1.app_kv = tx.app_kv := by
  unfold execInsertItem at h
  cases fault with
  | some err => simp at h
  | none =>
    cases hid : nextRowid tx.seq.order_items (tx.order_items.map (fun r => r.id)) with
    | none => simp [hid] at h
    | some id =>
      simp only [hid, Except.ok.injEq] at h
      subst h
      exact ⟨⟨_, rfl, by simp [IsItemRow, lineCents]⟩, rfl, rfl, rfl, rfl, rfl, rfl, rfl⟩

theorem insertItems_ok (env : DbEnv) (oid : Int) (lines : List CartLine) :
    ∀ (k : Nat) (tx tx1 : Store) (n : Nat), insertItems env oid lines k tx = (tx1, n, none) →
      (∃ items, tx1.order_items = tx.order_items ++ items
        ∧ List.Forall₂ (IsItemRow oid) lines items)
      ∧ tx1.orders = tx.orders ∧ tx1.event = tx.event ∧ tx1.products = tx.products
      ∧ tx1.pfand_refund = tx.pfand_refund ∧ tx1.order_reversals = tx.order_reversals
      ∧ tx1.settings = tx.settings ∧ tx1.app_kv = tx.app_kv := by
  induction lines with
  | nil =>
    intro k tx tx1 n h
    simp only [insertItems, Prod.mk.injEq] at h
    obtain ⟨rfl, -, -⟩ := h
    exact ⟨⟨[], by simp, List.Forall₂.nil⟩, rfl, rfl, rfl, rfl, rfl, rfl, rfl⟩
  | cons l ls ih =>
    intro k tx tx1 n h
    simp only [insertItems] at h
    cases hx : execInsertItem (env k) tx oid l with
    | error err => simp [hx] at h
    | ok tx2 =>
      simp only [hx, Prod.mk.injEq] at h
      obtain ⟨h1, h2, h3⟩ := h
      have hrec : insertItems env oid ls (k + 1) tx2
          = (tx1, (insertItems env oid ls (k + 1) tx2).2.1, none) := by
        rw [← h1, ← h3]
      obtain ⟨⟨items, hi, hf⟩, ho, he, hp, hr, hv, hs, ha⟩ := ih _ _ _ _ hrec
      obtain ⟨⟨it, hit, hrow⟩, ho2, he2, hp2, hr2, hv2, hs2, ha2⟩ :=
        execInsertItem_ok _ _ _ _ _ hx
      refine ⟨⟨it :: items, ?_, List.Forall₂.cons hrow hf⟩, ?_, ?_, ?_, ?_, ?_, ?_, ?_⟩
      · rw [hi, hit]; simp
      · rw [ho, ho2]
      · rw [he, he2]
      · rw [hp, hp2]
      · rw [hr, hr2]
      · rw [hv, hv2]
      · rw [hs, hs2]
      · rw [ha, ha2]

/-- C3. For every store, payment method and environment, `CreateSale` on the empty
cart returns the error "empty cart", makes no call on the store (no transaction is
begun) and leaves the store, hence every row count, unchanged. -/
theorem CreateSale_empty_cart (env : DbEnv) (now : Nat) (db : Store) (payment : String) :
    (CreateSale env now db payment []).err = some "empty cart"
    ∧ (CreateSale env now db payment []).calls = []
    ∧ (CreateSale env now db payment []).store = db
    ∧ (CreateSale env now db payment []).store.orders.length = db.orders.length
    ∧ (CreateSale env now db payment []).store.order_items.length = db.order_items.length := by
  simp [CreateSale]

theorem execInsertOrder_ok (fault : Option String) (tx tx1 : Store) (total : Int)
    (payment : String) (evID : Int) (now : Nat) (oid : Int)
    (h : execInsertOrder fault tx total payment evID now = .ok (tx1, oid)) :
    tx1.orders = tx.orders ++ [⟨oid, total, payment, some evID, now⟩]
    ∧ tx1.order_items = tx.order_items ∧ tx1.event = tx.event ∧ tx1.products = tx.products
    ∧ tx1.pfand_refund = tx.pfand_refund ∧ tx1.order_reversals = tx.order_reversals
    ∧ tx1.settings = tx.settings ∧ tx1.app_kv = tx.app_kv := by
  unfold execInsertOrder at h
  cases fault with
  | some err => simp at h
  | none =>
    cases hid : nextRowid tx.seq.orders (tx.orders.map (fun r => r.id)) with
    | none => simp [hid] at h
    | some id =>
      simp only [hid, Except.ok.injEq, Prod.mk.injEq] at h
      obtain ⟨h1, h2⟩ := h
      subst h1 h2
      exact ⟨rfl, rfl, rfl, rfl, rfl, rfl, rfl, rfl⟩

/-- Every run of `CreateSale` either returns an error, the zero result and the
store it was given, or returns `nil` after the order row and one row per cart line
were appended and nothing else was changed. -/
theorem CreateSale_cases (env : DbEnv) (now : Nat) (db : Store) (payment : String)
    (lines : List CartLine) :
    (∃ msg, (CreateSale env now db payment lines).err = some msg
      ∧ (CreateSale env now db payment lines).store = db
      ∧ (CreateSale env now db payment lines).ret = ⟨0, 0⟩)
    ∨ ((CreateSale env now db payment lines).err = none
      ∧ lines ≠ []
      ∧ (CreateSale env now db payment lines).ret.TotalCents = cartTotal lines
      ∧ ∃ evID items,
          ActiveEventID (env 1) db = (evID, none)
          ∧ (CreateSale env now db payment lines).store.orders
              = db.orders ++ [⟨(CreateSale env now db payment lines).ret.OrderID,
                               cartTotal lines, payment, some evID, now⟩]
          ∧ (CreateSale env now db payment lines).store.order_items = db.order_items ++ items
          ∧ List.Forall₂ (IsItemRow (CreateSale env now db payment lines).ret.OrderID) lines items
          ∧ (CreateSale env now db payment lines).store.event = db.event
          ∧ (CreateSale env now db payment lines).store.products = db.products
          ∧ (CreateSale env now db payment lines).store.pfand_refund = db.pfand_refund
          ∧ (CreateSale env now db payment lines).store.order_reversals = db.order_reversals
          ∧ (CreateSale env now db payment lines).store.settings = db.settings
          ∧ (CreateSale env now db payment lines).store.app_kv = db.app_kv) := by
  by_cases hl : lines.length = 0
  · left; exact ⟨"empty cart", by simp [CreateSale, hl]⟩
  have hne : lines ≠ [] := fun h => hl (by simp [h])
  cases h0 : env 0 with
  | some err => left; exact ⟨err, by simp [CreateSale, hl, h0]⟩
  | none =>
    cases hev : ActiveEventID (env 1) db with
    | mk evID e =>
      cases e with
      | some err => left; exact ⟨err, by simp [CreateSale, hl, h0, hev]⟩
      | none =>
        cases hord : execInsertOrder (env 2) db (cartTotal lines) payment evID now with
        | error err => left; exact ⟨err, by simp [CreateSale, hl, h0, hev, hord]⟩
        | ok p =>
          obtain ⟨tx, oid⟩ := p
          cases hit : insertItems env oid lines 3 tx with
          | mk tx1 rest =>
            obtain ⟨n, e⟩ := rest
            cases e with
            | some err => left; exact ⟨err, by simp [CreateSale, hl, h0, hev, hord, hit]⟩
            | none =>
              cases hc : env (3 + lines.length) with
              | some err =>
                left
                exact ⟨err, by simp [CreateSale, hl, h0, hev, hord, hit, commitSale, hc]⟩
              | none =>
                right
                obtain ⟨ho, hoi, he, hp, hr, hv, hs, ha⟩ := execInsertOrder_ok _ _ _ _ _ _ _ _ hord
                obtain ⟨⟨items, hi, hf⟩, ho2, he2, hp2, hr2, hv2, hs2, ha2⟩ :=
                  insertItems_ok env oid lines 3 tx tx1 n hit
                have hstore : (CreateSale env now db payment lines).store = tx1 := by
                  simp [CreateSale, hl, h0, hev, hord, hit, commitSale, hc]
                have hret : (CreateSale env now db payment lines).ret = ⟨oid, cartTotal lines⟩ := by
                  simp [CreateSale, hl, h0, hev, hord, hit, commitSale, hc]
                have herr : (CreateSale env now db payment lines).err = none := by
                  simp [CreateSale, hl, h0, hev, hord, hit, commitSale, hc]
                refine ⟨herr, hne, by rw [hret], evID, items, rfl, ?_, ?_, ?_, ?_, ?_, ?_, ?_, ?_, ?_⟩
                · rw [hstore, hret, ho2, ho]
                · rw [hstore, hi, hoi]
                · rw [hret]; exact hf
                · rw [hstore, he2, he]
                · rw [hstore, hp2, hp]
                · rw [hstore, hr2, hr]
                · rw [hstore, hv2, hv]
                · rw [hstore, hs2, hs]
                · rw [hstore, ha2, ha]

/-- C1. `CreateSale` is atomic on the store: for every environment, store, payment
method and cart, if it returns an error (whichever call failed) the store after the
call is the store before it, in particular tables `orders` and `order_items` are
unchanged; if it returns `nil`, table `orders` has gained the order row with the
returned id and table `order_items` has gained one row for every line of the cart. -/
theorem CreateSale_atomic (env : DbEnv) (now : Nat) (db : Store) (payment : String)
    (lines : List CartLine) :
    ((CreateSale env now db payment lines).err ≠ none →
      (CreateSale env now db payment lines).store = db
      ∧ (CreateSale env now db payment lines).store.orders = db.orders
      ∧ (CreateSale env now db payment lines).store.order_items = db.order_items)
    ∧ ((CreateSale env now db payment lines).err = none →
      ∃ o items,
        (CreateSale env now db payment lines).store.orders = db.orders ++ [o]
        ∧ o.id = (CreateSale env now db payment lines).ret.OrderID
        ∧ o.payment_method = payment
        ∧ (CreateSale env now db payment lines).store.order_items = db.order_items ++ items
        ∧ List.Forall₂ (IsItemRow o.id) lines items) := by
  rcases CreateSale_cases env now db payment lines with
    ⟨msg, he, hs, -⟩ | ⟨he, -, -, evID, items, -, ho, hi, hf, -⟩
  · refine ⟨fun _ => ⟨hs, by rw [hs], by rw [hs]⟩, fun h => ?_⟩
    rw [he] at h; cases h
  · refine ⟨fun h => absurd he h, fun _ => ⟨_, items, ho, rfl, rfl, hi, hf⟩⟩

/-- C1 where the insert of the second of two cart lines fails: the error is
returned and the store is the one before the call. -/
theorem CreateSale_atomic_witness :
    (CreateSale envSecondItemFails 5 storeFresh "BAR" cartTwo).err = some "disk I/O error"
    ∧ (CreateSale envSecondItemFails 5 storeFresh "BAR" cartTwo).calls
        = [.beginTx, .queryActiveEvent, .insertOrder, .insertOrderItem, .insertOrderItem,
           .rollback]
    ∧ (CreateSale envSecondItemFails 5 storeFresh "BAR" cartTwo).store = storeFresh :=
  ⟨by decide, by decide,
    ((CreateSale_atomic envSecondItemFails 5 storeFresh "BAR" cartTwo).1 (by decide)).1⟩

/-- C2, as stated, fails: for the cart with the single line 2^62 cents × 2, whose
fields all fit `int64`, `CreateSale` succeeds, and the returned total, the total of
the order row and the line total of the item row are all -2^63, while the sum of
`UnitCents × Qty` is 2^63. -/
theorem CreateSale_total_overflow :
    (IsInt64 4611686018427387904 ∧ IsInt64 2)
    ∧ (CreateSale DbEnv.ok 5 storeFresh "BAR" cartOverflow).err = none
    ∧ (CreateSale DbEnv.ok 5 storeFresh "BAR" cartOverflow).ret = ⟨1, -9223372036854775808⟩
    ∧ exactTotal cartOverflow = 9223372036854775808
    ∧ (CreateSale DbEnv.ok 5 storeFresh "BAR" cartOverflow).store.orders
        = [⟨1, -9223372036854775808, "BAR", some 1, 5⟩]
    ∧ (CreateSale DbEnv.ok 5 storeFresh "BAR" cartOverflow).store.order_items
        = [⟨1, 1, some 1, "Pommes", 4611686018427387904, 2, 700, -9223372036854775808⟩] := by
  decide

/-- C2, amended. Whenever `CreateSale` succeeds (which needs a non-empty cart), the
returned `TotalCents` is the sum over the cart lines of `UnitCents × Qty` wrapped to
`int64`, hence that sum itself when it fits `int64`; the order row appended for the
returned id carries the same total; and exactly `len(lines)` item rows are appended,
in cart order, each for the new order id and with line total `UnitCents × Qty` of
its cart line wrapped to `int64`, hence that product itself when it fits. -/
theorem CreateSale_total (env : DbEnv) (now : Nat) (db : Store) (payment : String)
    (lines : List CartLine) (hok : (CreateSale env now db payment lines).err = none) :
    lines ≠ []
    ∧ (CreateSale env now db payment lines).ret.TotalCents = wrapInt64 (exactTotal lines)
    ∧ (IsInt64 (exactTotal lines) →
        (CreateSale env now db payment lines).ret.TotalCents = exactTotal lines)
    ∧ ∃ o items,
        (CreateSale env now db payment lines).store.orders = db.orders ++ [o]
        ∧ o.id = (CreateSale env now db payment lines).ret.OrderID
        ∧ o.total_cents = (CreateSale env now db payment lines).ret.TotalCents
        ∧ (CreateSale env now db payment lines).store.order_items = db.order_items ++ items
        ∧ items.length = lines.length
        ∧ List.Forall₂ (IsItemRow (CreateSale env now db payment lines).ret.OrderID) lines items
        ∧ List.Forall₂ (fun l it => IsInt64 (l.UnitCents * l.Qty) →
            it.line_cents = l.UnitCents * l.Qty) lines items := by
  rcases CreateSale_cases env now db payment lines with
    ⟨msg, he, -, -⟩ | ⟨-, hne, ht, evID, items, -, ho, hi, hf, -⟩
  · rw [he] at hok; cases hok
  · have htot : (CreateSale env now db payment lines).ret.TotalCents
        = wrapInt64 (exactTotal lines) := by rw [ht, cartTotal_eq]
    refine ⟨hne, htot, fun h => by rw [htot, wrapInt64_of_isInt64 _ h], _, items, ho, rfl,
      ht.symm, hi, hf.length_eq.symm, hf, ?_⟩
    refine hf.imp ?_
    intro l it hrow hfit
    rw [hrow.2.2.2.2.2.2, wrapInt64_of_isInt64 _ hfit]

/-- C2, amended, on a cart of two lines: the total is 2 × 350 + 1 × 250 = 950. -/
theorem CreateSale_total_witness :
    (CreateSale DbEnv.ok 5 storeFresh "KARTE" cartTwo).err = none
    ∧ (CreateSale DbEnv.ok 5 storeFresh "KARTE" cartTwo).ret.TotalCents = 950
    ∧ exactTotal cartTwo = 950 :=
  ⟨by decide,
   ((CreateSale_total DbEnv.ok 5 storeFresh "KARTE" cartTwo (by decide)).2.2.1 (by decide)).trans
     (by decide),
   by decide⟩


/-! ## Properties of package `db` -/

/-- C4, as stated, fails: on the store right after `migrate`, `RefundDeposit` with
qty 0 and with qty -1 returns `nil` and writes the row it was given. -/
theorem RefundDeposit_nonpositive_qty_written :
    (RefundDeposit DbEnv.ok 7 storeFresh 0 0).err = none
    ∧ (RefundDeposit DbEnv.ok 7 storeFresh 0 0).store.pfand_refund = [⟨1, 0, 0, some 1, 7⟩]
    ∧ (RefundDeposit DbEnv.ok 7 storeFresh (-1) (-50)).err = none
    ∧ (RefundDeposit DbEnv.ok 7 storeFresh (-1) (-50)).store.pfand_refund
        = [⟨1, -1, -50, some 1, 7⟩] := by
  decide

/-- C4, amended. The quantity is checked by the click handler of the deposit tab,
not by `RefundDeposit`: for every content of the entry field that parses to a
quantity ≤ 0 the handler sets the label to "Anzahl > 0", makes no call on the store
(so `RefundDeposit` is not called) and leaves the store, hence table
`pfand_refund`, unchanged. -/
theorem depositSubmit_rejects_nonpositive (env : DbEnv) (now : Nat) (db : Store)
    (qtyText : String) (h : (ParseInt qtyText).1 ≤ 0) :
    depositSubmit env now db qtyText = (db, [], .text "Anzahl > 0")
    ∧ (depositSubmit env now db qtyText).1.pfand_refund = db.pfand_refund := by
  have hs : depositSubmit env now db qtyText = (db, [], .text "Anzahl > 0") := by
    unfold depositSubmit
    simp only [h, if_true]
  exact ⟨hs, by rw [hs]⟩

/-- C4, amended, for the entries "0" and "-1". -/
theorem depositSubmit_rejects_nonpositive_witness :
    ((ParseInt "0").1 = 0 ∧ (ParseInt "-1").1 = -1)
    ∧ depositSubmit DbEnv.ok 7 storeFresh "0" = (storeFresh, [], .text "Anzahl > 0")
    ∧ depositSubmit DbEnv.ok 7 storeFresh "-1" = (storeFresh, [], .text "Anzahl > 0") :=
  ⟨by decide,
   (depositSubmit_rejects_nonpositive DbEnv.ok 7 storeFresh "0" (by decide)).1,
   (depositSubmit_rejects_nonpositive DbEnv.ok 7 storeFresh "-1" (by decide)).1⟩

/-- C5 at a store whose only event is not active: `RefundDeposit` with qty 3 returns
`nil` and writes a row whose event id is `NULL`, whereas `CreateSale` on a
non-empty cart returns `sql.ErrNoRows` and writes nothing. -/
theorem RefundDeposit_without_active_event :
    selectActiveEvent storeNoActive = none
    ∧ (RefundDeposit DbEnv.ok 7 storeNoActive 3 150).err = none
    ∧ (RefundDeposit DbEnv.ok 7 storeNoActive 3 150).store.pfand_refund
        = [⟨1, 3, 150, none, 7⟩]
    ∧ (CreateSale DbEnv.ok 7 storeNoActive "BAR" cartTwo).err = some errNoRows
    ∧ (CreateSale DbEnv.ok 7 storeNoActive "BAR" cartTwo).store = storeNoActive := by
  decide

theorem selectActiveEvent_of_filter (db : Store) (ev : EventRow) (rest : List EventRow)
    (h : db.event.filter (fun r => r.active = some 1) = ev :: rest) :
    selectActiveEvent db = some ev.id ∧ ev ∈ db.event ∧ ev.active = some 1 := by
  have hmem : ev ∈ db.event.filter (fun r => r.active = some 1) := by rw [h]; simp
  have hm := List.mem_filter.mp hmem
  refine ⟨by simp [selectActiveEvent, h], hm.1, by simpa using hm.2⟩

/-- C8. For every store that has an event row with `active = 1`, every qty (in
particular every qty > 0), amount, time and environment, a successful
`RefundDeposit` appends exactly one row to table `pfand_refund`, with the given qty
and amount and with the id of the active event as its event id: of the first row of
table `event` with `active = 1`, the only such row when exactly one event is
active, and the id that `ActiveEventID` returns; no other table changes. -/
theorem RefundDeposit_row (env : DbEnv) (now : Nat) (db : Store) (qty amountCents : Int)
    (hev : ∃ r ∈ db.event, r.active = some 1)
    (hok : (RefundDeposit env now db qty amountCents).err = none) :
    (∃ id ev rest,
        db.event.filter (fun r => r.active = some 1) = ev :: rest
        ∧ ev ∈ db.event ∧ ev.active = some 1
        ∧ ActiveEventID none db = (ev.id, none)
        ∧ (RefundDeposit env now db qty amountCents).store.pfand_refund
            = db.pfand_refund ++ [⟨id, qty, amountCents, some ev.id, now⟩])
    ∧ (RefundDeposit env now db qty amountCents).store.event = db.event
    ∧ (RefundDeposit env now db qty amountCents).store.products = db.products
    ∧ (RefundDeposit env now db qty amountCents).store.orders = db.orders
    ∧ (RefundDeposit env now db qty amountCents).store.order_items = db.order_items
    ∧ (RefundDeposit env now db qty amountCents).store.order_reversals = db.order_reversals
    ∧ (RefundDeposit env now db qty amountCents).store.settings = db.settings
    ∧ (RefundDeposit env now db qty amountCents).store.app_kv = db.app_kv := by
  obtain ⟨r, hr, hra⟩ := hev
  cases hfil : db.event.filter (fun r => r.active = some 1) with
  | nil =>
    have := List.filter_eq_nil_iff.mp hfil r hr
    simp [hra] at this
  | cons ev rest =>
    obtain ⟨hsel, hmem, hact⟩ := selectActiveEvent_of_filter db ev rest hfil
    have hid : ActiveEventID none db = (ev.id, none) := by
      simp [ActiveEventID, hsel]
    cases h0 : env 0 with
    | some err => simp [RefundDeposit, h0] at hok
    | none =>
      cases hrow : nextRowid db.seq.pfand_refund (db.pfand_refund.map (fun r => r.id)) with
      | none => simp [RefundDeposit, h0, hrow] at hok
      | some id =>
        have hstore : (RefundDeposit env now db qty amountCents).store
            = { db with
                  pfand_refund := db.pfand_refund ++
                    [{ id := id, qty := qty, amount_cents := amountCents,
                       event_id := some ev.id, created_at := now }],
                  seq := { db.seq with pfand_refund := id } } := by
          simp [RefundDeposit, h0, hrow, hsel]
        rw [hstore]
        exact ⟨⟨id, ev, rest, rfl, hmem, hact, hid, rfl⟩, rfl, rfl, rfl, rfl, rfl, rfl, rfl⟩

/-- C8 for `RefundDeposit(3, 150)` on the store right after `migrate`: the row has
qty 3, amount 150 and the id 1 of the event "Standard", the active one. -/
theorem RefundDeposit_row_witness :
    storeFresh.event = [⟨1, "Standard", some 1, 0⟩]
    ∧ (RefundDeposit DbEnv.ok 7 storeFresh 3 150).err = none
    ∧ (RefundDeposit DbEnv.ok 7 storeFresh 3 150).store.pfand_refund
        = [⟨1, 3, 150, some 1, 7⟩]
    ∧ (RefundDeposit DbEnv.ok 7 storeFresh 3 150).store.event = storeFresh.event :=
  ⟨by decide, by decide, by decide,
   (RefundDeposit_row DbEnv.ok 7 storeFresh 3 150 ⟨⟨1, "Standard", some 1, 0⟩, by decide, rfl⟩
      (by decide)).2.1⟩

end MuehlePos
